import Mathlib

/-
Verification of src/mongo/util/net/http_client_curl.cpp.

Shallow embedding: the curl engine is modelled as an environment record
describing what the native library reports during one transfer, and the
observable behaviour of doPost is the list of writes it performs on the
shared promise. Machine byte values are Nat; CURLcode values are Nat with
0 standing for CURLE_OK; the long status code is Int.
-/

set_option autoImplicit false

namespace Mongo

/-- Error codes used by this translation unit, plus the code produced by
exceptionToStatus for a foreign exception that is not a DBException. -/
inductive ErrorCodes where
  | InternalError
  | OperationFailed
  | UnknownError
  deriving DecidableEq

/-- Return status of a fallible call, as in mongo Status. -/
inductive Status where
  | ok
  | error (code : ErrorCodes) (msg : String)
  deriving DecidableEq

/-- The error code carried by a Status, if any. -/
def Status.errorCode : Status → Option ErrorCodes
  | Status.ok => none
  | Status.error c _ => some c

/-- CURLE_OK from curl.h. -/
def CURLE_OK : Nat := 0

/-- CURLE_UNSUPPORTED_PROTOCOL from curl.h. -/
def CURLE_UNSUPPORTED_PROTOCOL : Nat := 1

/-- CURLE_WRITE_ERROR from curl.h. -/
def CURLE_WRITE_ERROR : Nat := 23

/-- CURLPROTO_HTTP bit from curl.h. -/
def CURLPROTO_HTTP : Nat := 1

/-- CURLPROTO_HTTPS bit from curl.h. -/
def CURLPROTO_HTTPS : Nat := 2

/-- CURL_HTTP_VERSION_1_1 from curl.h. -/
def CURL_HTTP_VERSION_1_1 : Nat := 2

/-- CURL_SSLVERSION_TLSv1_2 from curl.h. -/
def CURL_SSLVERSION_TLSv1_2 : Nat := 6

/-- Modelled from the spec: the connect timeout constant is declared in
mongo/util/net/http_client.h, which is not under src. The spec only
requires both timeout constants to be finite, with the total bound above
the connect bound. -/
def kConnectionTimeoutSeconds : Nat := 60

/-- Modelled from the spec: the total request timeout constant is declared
in mongo/util/net/http_client.h, which is not under src. -/
def kTotalRequestTimeoutSeconds : Nat := 120

/-- Process-wide state owned by CurlLibraryManager: the initialized flag. -/
structure CurlLibraryManager where
  initialized : Bool
  deriving DecidableEq

/-- Behaviour of the curl globals during one call of curl_global_init: the
CURLcode it returns, and whether curl_version_info reports the
CURL_VERSION_SSL feature bit afterwards. -/
structure CurlGlobalEnv where
  globalInitResult : Nat
  sslSupported : Bool
  deriving DecidableEq

/-- Result of one call of CurlLibraryManager.initialize: the returned
Status, the manager state afterwards, and how many times curl_global_init
ran during the call. -/
structure InitResult where
  status : Status
  state : CurlLibraryManager
  startups : Nat
  deriving DecidableEq

/-- CurlLibraryManager.initialize from the source: returns OK at once when
the flag is already set; otherwise runs curl_global_init, checks its
CURLcode, then checks the SSL feature bit, and records the flag only when
both checks pass. -/
def CurlLibraryManager.initialize (genv : CurlGlobalEnv) (m : CurlLibraryManager) :
    InitResult :=
  if m.initialized then ⟨Status.ok, m, 0⟩
  else if genv.globalInitResult ≠ CURLE_OK then
    ⟨Status.error ErrorCodes.InternalError
      ("Failed to initialize CURL: " ++ toString genv.globalInitResult), m, 1⟩
  else if genv.sslSupported = false then
    ⟨Status.error ErrorCodes.InternalError "Curl lacks SSL support, cannot continue", m, 1⟩
  else ⟨Status.ok, ⟨true⟩, 1⟩

/-- The growable byte store DataBuilder, modelled by its contents and its
current capacity. doPost constructs it with capacity 4096. -/
structure DataBuilder where
  buf : List Nat
  capacity : Nat
  deriving DecidableEq

/-- Modelled from the spec: DataBuilder.writeAndAdvance lives in
mongo/base/data_builder.h, which is not under src. The spec describes the
IncomingBuffer as an append-only growable byte store that grows on demand
and whose append can fail on allocation failure; allocOk says whether the
growth allocation succeeds when growth is needed. A chunk that already
fits needs no allocation and is appended unconditionally; on failure
nothing is written. -/
def DataBuilder.writeAndAdvance (allocOk : Bool) (db : DataBuilder) (bytes : List Nat) :
    Option DataBuilder :=
  if db.buf.length + bytes.length ≤ db.capacity then
    some ⟨db.buf ++ bytes, db.capacity⟩
  else if allocOk then
    some ⟨db.buf ++ bytes, max (db.buf.length + bytes.length) (2 * db.capacity)⟩
  else none

/-- WriteMemoryCallback from the source: data holds the bytes at ptr, of
which the engine offers size * nmemb. On a failed append it returns 0, a
count different from the offered one, to make curl raise
CURLE_WRITE_ERROR; the pair also carries the builder state afterwards. -/
def WriteMemoryCallback (size nmemb : Nat) (data : List Nat) (allocOk : Bool)
    (db : DataBuilder) : Nat × DataBuilder :=
  let realsize := size * nmemb
  match DataBuilder.writeAndAdvance allocOk db (data.take realsize) with
  | none => (0, db)
  | some db2 => (realsize, db2)

/-- ConstDataRangeCursor: a read position over the payload bytes. -/
structure ConstDataRangeCursor where
  payload : List Nat
  pos : Nat
  deriving DecidableEq

/-- Remaining length of the unread region of the cursor. -/
def ConstDataRangeCursor.length (c : ConstDataRangeCursor) : Nat :=
  c.payload.length - c.pos

/-- ConstDataRangeCursor.advance: fails when asked to move past the end. -/
def ConstDataRangeCursor.advance (c : ConstDataRangeCursor) (n : Nat) :
    Option ConstDataRangeCursor :=
  if n ≤ ConstDataRangeCursor.length c then some ⟨c.payload, c.pos + n⟩ else none

/-- ReadMemoryCallback from the source: returns the bytes copied into the
engine buffer (their count is the C return value) together with the cursor
afterwards. The none branch of advance corresponds to the invariant call
in the source; it is unreachable because readSize never exceeds the
remaining length. -/
def ReadMemoryCallback (size nitems : Nat) (c : ConstDataRangeCursor) :
    List Nat × ConstDataRangeCursor :=
  if 0 < ConstDataRangeCursor.length c then
    let readSize := min (size * nitems) (ConstDataRangeCursor.length c)
    match ConstDataRangeCursor.advance c readSize with
    | some c2 => ((c.payload.drop c.pos).take readSize, c2)
    | none => ([], c)
  else ([], c)

/-- The per-transfer option values set through curl_easy_setopt in doPost. -/
structure CurlOptions where
  url : String
  post : Nat
  protocols : Nat
  httpVersion : Nat
  postFieldSize : Nat
  connectTimeoutSeconds : Nat
  totalTimeoutSeconds : Nat
  sslVersion : Nat
  followLocation : Nat
  noSignal : Nat
  httpHeaders : List String
  deriving DecidableEq

/-- The option values doPost configures on the easy handle, in source
order: POST method, the target URL, the protocol mask (HTTPS plus HTTP
when test commands are enabled, HTTPS alone otherwise), HTTP 1.1, the
payload size, the two timeouts, the TLS floor, redirects off, signals off,
and the three fixed headers. -/
def configureOptions (testCommandsEnabled : Bool) (urlString : String)
    (payloadLen : Nat) : CurlOptions :=
  ⟨urlString, 1,
   if testCommandsEnabled then CURLPROTO_HTTPS ||| CURLPROTO_HTTP else CURLPROTO_HTTPS,
   CURL_HTTP_VERSION_1_1, payloadLen, kConnectionTimeoutSeconds,
   kTotalRequestTimeoutSeconds, CURL_SSLVERSION_TLSv1_2, 0, 1,
   ["Content-Type: application/octet-stream", "Accept: application/octet-stream",
    "Expect:"]⟩

/-- Modelled from the spec: the engine treats a URL by its scheme; this is
the curl protocol bit of the scheme of the URL text. -/
def urlProtocolBit (url : String) : Nat :=
  if List.isPrefixOf "https://".data url.data then CURLPROTO_HTTPS
  else if List.isPrefixOf "http://".data url.data then CURLPROTO_HTTP
  else 0

/-- Black-box behaviour of the curl engine and the process globals for one
transfer. easyInitOk says whether curl_easy_init returns a handle;
testCommandsEnabled is getTestCommandsEnabled; setoptResults are the
CURLcodes the curl_easy_setopt calls return (the source discards them);
alloc says whether the growth allocation of the incoming buffer succeeds
at a given write-callback invocation; responseChunks are the body chunks
the server delivers, in order; netResult is the transport-level CURLcode
of the transfer when it is not cut short by a write error; strerror is
curl_easy_strerror; getinfoResult and statusCode describe the
CURLINFO_RESPONSE_CODE query; exn is a foreign exception raised inside
the try block, if any. -/
structure CurlTransferEnv where
  easyInitOk : Bool
  testCommandsEnabled : Bool
  setoptResults : List Nat
  alloc : Nat → Bool
  responseChunks : List (List Nat)
  netResult : Nat
  strerror : Nat → String
  getinfoResult : Nat
  statusCode : Int
  exn : Option String

/-- Modelled from the spec: the engine delivers the response chunks one by
one to the write callback and aborts as soon as the callback returns a
count different from the offered one. Returns whether every chunk was
accepted, together with the final builder state. -/
def runWriteChunks (alloc : Nat → Bool) (i : Nat) (chunks : List (List Nat))
    (db : DataBuilder) : Bool × DataBuilder :=
  match chunks with
  | [] => (true, db)
  | c :: rest =>
    if (WriteMemoryCallback 1 c.length c (alloc i) db).1 = 1 * c.length then
      runWriteChunks alloc (i + 1) rest (WriteMemoryCallback 1 c.length c (alloc i) db).2
    else (false, (WriteMemoryCallback 1 c.length c (alloc i) db).2)

/-- Modelled from the spec: curl_easy_perform as a black box satisfying
the engine contract. It rejects a URL whose protocol bit is outside the
configured protocol mask with CURLE_UNSUPPORTED_PROTOCOL, feeds the
delivered chunks through the write callback, turns a short-count callback
return into CURLE_WRITE_ERROR, and otherwise reports the transport
result. -/
def curlEasyPerform (protocolMask : Nat) (env : CurlTransferEnv) (urlString : String)
    (db : DataBuilder) : Nat × DataBuilder :=
  if urlProtocolBit urlString &&& protocolMask = 0 then (CURLE_UNSUPPORTED_PROTOCOL, db)
  else if (runWriteChunks env.alloc 0 env.responseChunks db).1 then
    (env.netResult, (runWriteChunks env.alloc 0 env.responseChunks db).2)
  else (CURLE_WRITE_ERROR, (runWriteChunks env.alloc 0 env.responseChunks db).2)

/-- The perform step of doPost: options are configured from the test-mode
flag, the URL and the payload length, the incoming buffer starts empty
with capacity 4096, and the transfer runs. -/
def performTransfer (env : CurlTransferEnv) (urlString : String) (cdr : List Nat) :
    Nat × DataBuilder :=
  curlEasyPerform (configureOptions env.testCommandsEnabled urlString cdr.length).protocols
    env urlString ⟨[], 4096⟩

/-- One write performed on the shared promise: setError or emplaceValue. -/
inductive PromiseWrite where
  | value (bytes : List Nat)
  | error (code : ErrorCodes) (msg : String)
  deriving DecidableEq

/-- The tail of doPost after the easy handle was obtained: configure the
options (their CURLcodes are discarded), perform, check the CURLcode,
query the status code, check it against 200, and either report an
OperationFailed error or emplace the accumulated bytes. -/
def doPostConfigured (env : CurlTransferEnv) (urlString : String) (cdr : List Nat) :
    List PromiseWrite :=
  let _setoptReturnCodes := env.setoptResults
  if (performTransfer env urlString cdr).1 ≠ CURLE_OK then
    [PromiseWrite.error ErrorCodes.OperationFailed
      ("Bad HTTP response from API server: "
        ++ env.strerror (performTransfer env urlString cdr).1)]
  else if env.getinfoResult ≠ CURLE_OK then
    [PromiseWrite.error ErrorCodes.OperationFailed
      ("Unexpected error retrieving response: " ++ env.strerror env.getinfoResult)]
  else if env.statusCode ≠ 200 then
    [PromiseWrite.error ErrorCodes.OperationFailed
      ("Unexpected http status code from server: " ++ toString env.statusCode)]
  else
    [PromiseWrite.value (performTransfer env urlString cdr).2.buf]

/-- The try block of doPost. A raised exception preempts the promise
write of the path it interrupts: in the source every write is immediately
followed by a return, so no write precedes a raised exception. -/
def doPostTry (env : CurlTransferEnv) (urlString : String) (cdr : List Nat) :
    Except String (List PromiseWrite) :=
  match env.exn with
  | some e => Except.error e
  | none =>
    Except.ok
      (if env.easyInitOk = false then
        [PromiseWrite.error ErrorCodes.InternalError "Curl initialization failed"]
      else doPostConfigured env urlString cdr)

/-- CurlHttpClient::doPost from the source: the try block with its catch
handler, which converts any escaped exception through exceptionToStatus
(modelled from the spec as an UnknownError carrying the exception text,
since exceptionToStatus is not under src). The value of doPost is the
sequence of writes performed on the shared promise. -/
def doPost (env : CurlTransferEnv) (urlString : String) (cdr : List Nat) :
    List PromiseWrite :=
  match doPostTry env urlString cdr with
  | Except.ok writes => writes
  | Except.error e => [PromiseWrite.error ErrorCodes.UnknownError e]

/-- A concrete engine environment used by witnesses: a live handle, test
mode off, a server that delivers the chunks [7, 8] and [9] with status
200, no transport failure, no allocation failure, no exception. -/
def happyEnv : CurlTransferEnv :=
  ⟨true, false, [], fun _ => true, [[7, 8], [9]], 0, fun _ => "transport fault", 0, 200,
   none⟩

/-! Helper lemmas shared by the claim theorems. -/

/-- A successful append extends the buffer by exactly the given bytes. -/
theorem writeAndAdvance_some_buf (allocOk : Bool) (db db2 : DataBuilder)
    (bytes : List Nat)
    (h : DataBuilder.writeAndAdvance allocOk db bytes = some db2) :
    db2.buf = db.buf ++ bytes := by
  unfold DataBuilder.writeAndAdvance at h
  split_ifs at h
  · rw [← Option.some_inj.mp h]
  · rw [← Option.some_inj.mp h]

/-- When every chunk is accepted, the final buffer is the old buffer
followed by the concatenation of the chunks. -/
theorem runWriteChunks_true_buf (alloc : Nat → Bool) (chunks : List (List Nat)) :
    ∀ (i : Nat) (db db2 : DataBuilder),
      runWriteChunks alloc i chunks db = (true, db2) →
      db2.buf = db.buf ++ chunks.flatten := by
  induction chunks with
  | nil =>
    intro i db db2 h
    unfold runWriteChunks at h
    injection h with h1 h2
    subst h2
    simp
  | cons c rest ih =>
    intro i db db2 h
    unfold runWriteChunks at h
    cases hwa : DataBuilder.writeAndAdvance (alloc i) db (List.take (1 * c.length) c) with
    | some db1 =>
      have hW : WriteMemoryCallback 1 c.length c (alloc i) db = (1 * c.length, db1) := by
        simp only [WriteMemoryCallback]
        rw [hwa]
      rw [hW] at h
      rw [if_pos rfl] at h
      have hbuf := writeAndAdvance_some_buf (alloc i) db db1 _ hwa
      have hrec := ih (i + 1) db1 db2 h
      rw [hrec, hbuf]
      simp [List.append_assoc]
    | none =>
      have hW : WriteMemoryCallback 1 c.length c (alloc i) db = (0, db) := by
        simp only [WriteMemoryCallback]
        rw [hwa]
      rw [hW] at h
      by_cases hc : (0 : Nat) = 1 * c.length
      · rw [if_pos hc] at h
        have hlen : c.length = 0 := by omega
        have hc0 : c = [] := List.length_eq_zero.mp hlen
        subst hc0
        have hrec := ih (i + 1) db db2 h
        simpa using hrec
      · rw [if_neg hc] at h
        injection h with hf
        exact absurd hf (by simp)

/-- When the perform step reports CURLE_OK, the incoming buffer holds the
concatenation of all delivered chunks. -/
theorem performTransfer_ok_buf (env : CurlTransferEnv) (u : String) (p : List Nat)
    (h : (performTransfer env u p).1 = CURLE_OK) :
    (performTransfer env u p).2.buf = env.responseChunks.flatten := by
  unfold performTransfer curlEasyPerform at h ⊢
  split_ifs at h ⊢ with hp hw
  · simp [CURLE_UNSUPPORTED_PROTOCOL, CURLE_OK] at h
  · cases hr : runWriteChunks env.alloc 0 env.responseChunks ⟨[], 4096⟩ with
    | mk ok db2 =>
      have hj := runWriteChunks_true_buf env.alloc env.responseChunks 0 ⟨[], 4096⟩ db2
      rw [hr] at hj
      rw [hr] at hw
      have hok : ok = true := by simpa using hw
      subst hok
      simpa using hj rfl
  · simp [CURLE_WRITE_ERROR, CURLE_OK] at h

/-- With no exception and a live handle, doPost is its configured tail. -/
theorem doPost_eq_configured (env : CurlTransferEnv) (u : String) (p : List Nat)
    (hexn : env.exn = none) (hinit : env.easyInitOk = true) :
    doPost env u p = doPostConfigured env u p := by
  unfold doPost doPostTry
  rw [hexn]
  simp [hinit]

/-! Claim theorems. -/

/-- Claim C1: when the engine reports a successful execution and status
retrieval yields exactly 200, the future resolves to success whose value
is exactly the bytes accumulated in the IncomingBuffer during the
transfer, which are the response body delivered by the server. -/
theorem doPost_success_value_is_accumulated_body (env : CurlTransferEnv) (u : String)
    (p : List Nat) (hexn : env.exn = none) (hinit : env.easyInitOk = true)
    (hperf : (performTransfer env u p).1 = CURLE_OK)
    (hinfo : env.getinfoResult = CURLE_OK) (hstatus : env.statusCode = 200) :
    doPost env u p = [PromiseWrite.value (performTransfer env u p).2.buf] ∧
    (performTransfer env u p).2.buf = env.responseChunks.flatten := by
  constructor
  · rw [doPost_eq_configured env u p hexn hinit]
    unfold doPostConfigured
    simp [hperf, hinfo, hstatus]
  · exact performTransfer_ok_buf env u p hperf

/-- Witness for C1 at a concrete transfer. -/
theorem doPost_success_value_is_accumulated_body_witness :
    doPost happyEnv "https://a.example" [3]
        = [PromiseWrite.value (performTransfer happyEnv "https://a.example" [3]).2.buf] ∧
    (performTransfer happyEnv "https://a.example" [3]).2.buf
        = happyEnv.responseChunks.flatten :=
  doPost_success_value_is_accumulated_body happyEnv "https://a.example" [3] rfl rfl
    (by decide) rfl rfl

/-- Claim C2: when the transfer executes successfully at the transport
level but the retrieved status code is not 200, the single outcome is an
OperationFailed error whose message contains the numeric status code, and
no success value is produced. -/
theorem doPost_non200_operation_failed (env : CurlTransferEnv) (u : String)
    (p : List Nat) (hexn : env.exn = none) (hinit : env.easyInitOk = true)
    (hperf : (performTransfer env u p).1 = CURLE_OK)
    (hinfo : env.getinfoResult = CURLE_OK) (hstatus : env.statusCode ≠ 200) :
    doPost env u p = [PromiseWrite.error ErrorCodes.OperationFailed
      ("Unexpected http status code from server: " ++ toString env.statusCode)] ∧
    ∃ s1 s2 : String,
      "Unexpected http status code from server: " ++ toString env.statusCode
        = s1 ++ toString env.statusCode ++ s2 := by
  constructor
  · rw [doPost_eq_configured env u p hexn hinit]
    unfold doPostConfigured
    simp [hperf, hinfo, hstatus]
  · exact ⟨"Unexpected http status code from server: ", "", by simp⟩

/-- Witness for C2 at a concrete transfer with status 404. -/
theorem doPost_non200_operation_failed_witness :
    doPost { happyEnv with statusCode := 404 } "https://a.example" [3]
        = [PromiseWrite.error ErrorCodes.OperationFailed
            ("Unexpected http status code from server: "
              ++ toString ({ happyEnv with statusCode := 404 } :
                  CurlTransferEnv).statusCode)] ∧
    ∃ s1 s2 : String,
      "Unexpected http status code from server: "
          ++ toString ({ happyEnv with statusCode := 404 } : CurlTransferEnv).statusCode
        = s1 ++ toString ({ happyEnv with statusCode := 404 } :
            CurlTransferEnv).statusCode ++ s2 :=
  doPost_non200_operation_failed { happyEnv with statusCode := 404 } "https://a.example"
    [3] rfl rfl (by decide) rfl (by decide)

/-- Claim C5: a fault raised anywhere inside the try block of doPost is
caught at the orchestrator boundary and converted into a single failure
outcome written into the promise; doPost itself is total, so no fault
propagates to the caller on the worker thread. -/
theorem doPost_converts_exception (env : CurlTransferEnv) (u : String) (p : List Nat)
    (e : String) (hexn : env.exn = some e) :
    doPost env u p = [PromiseWrite.error ErrorCodes.UnknownError e] := by
  unfold doPost doPostTry
  rw [hexn]

/-- Witness for C5 at a concrete faulting transfer. -/
theorem doPost_converts_exception_witness :
    doPost { happyEnv with exn := some "boom" } "https://a.example" [3]
      = [PromiseWrite.error ErrorCodes.UnknownError "boom"] :=
  doPost_converts_exception { happyEnv with exn := some "boom" } "https://a.example" [3]
    "boom" rfl

/-- Claim C9: on every execution path the promise is written exactly
once: doPost performs exactly one write, an error or a value, never both
and never neither. -/
theorem doPost_writes_exactly_once (env : CurlTransferEnv) (u : String) (p : List Nat) :
    (doPost env u p).length = 1 := by
  unfold doPost doPostTry doPostConfigured
  rcases hx : env.exn with _ | e
  · simp only [hx]
    split_ifs <;> simp
  · simp [hx]

/-- Claim C3: the read-out callback copies exactly
min(requestedMaxBytes, remaining) bytes from the unread region, advances
the cursor by exactly that count, and returns that count (the length of
the copied list); it never copies more than requested or more than
remains, never moves the cursor past the payload, and returns 0 when
nothing remains. -/
theorem readMemoryCallback_copies_min (size nitems : Nat) (c : ConstDataRangeCursor)
    (h : c.pos ≤ c.payload.length) :
    (ReadMemoryCallback size nitems c).1
        = (c.payload.drop c.pos).take
            (min (size * nitems) (ConstDataRangeCursor.length c)) ∧
    (ReadMemoryCallback size nitems c).1.length
        = min (size * nitems) (ConstDataRangeCursor.length c) ∧
    (ReadMemoryCallback size nitems c).2.pos
        = c.pos + (ReadMemoryCallback size nitems c).1.length ∧
    (ReadMemoryCallback size nitems c).2.payload = c.payload ∧
    (ReadMemoryCallback size nitems c).1.length ≤ size * nitems ∧
    (ReadMemoryCallback size nitems c).1.length ≤ ConstDataRangeCursor.length c ∧
    (ReadMemoryCallback size nitems c).2.pos ≤ c.payload.length ∧
    (ConstDataRangeCursor.length c = 0 → ReadMemoryCallback size nitems c = ([], c)) := by
  by_cases hl : 0 < ConstDataRangeCursor.length c
  · have hadv : ConstDataRangeCursor.advance c
        (min (size * nitems) (ConstDataRangeCursor.length c))
        = some ⟨c.payload, c.pos + min (size * nitems) (ConstDataRangeCursor.length c)⟩ := by
      unfold ConstDataRangeCursor.advance
      rw [if_pos (Nat.min_le_right _ _)]
    have hr : ReadMemoryCallback size nitems c
        = ((c.payload.drop c.pos).take
             (min (size * nitems) (ConstDataRangeCursor.length c)),
           ⟨c.payload, c.pos + min (size * nitems) (ConstDataRangeCursor.length c)⟩) := by
      unfold ReadMemoryCallback
      rw [if_pos hl]
      simp only [hadv]
    have hb : ConstDataRangeCursor.length c = c.payload.length - c.pos := rfl
    have hlen : ((c.payload.drop c.pos).take
        (min (size * nitems) (ConstDataRangeCursor.length c))).length
        = min (size * nitems) (ConstDataRangeCursor.length c) := by
      simp only [List.length_take, List.length_drop, hb]
      omega
    rw [hr]
    refine ⟨rfl, hlen, ?_, rfl, ?_, ?_, ?_, ?_⟩
    · rw [hlen]
    · rw [hlen]; exact Nat.min_le_left _ _
    · rw [hlen]; exact Nat.min_le_right _ _
    · show c.pos + min (size * nitems) (ConstDataRangeCursor.length c)
        ≤ c.payload.length
      rw [hb]
      omega
    · intro h0; omega
  · have hl0 : ConstDataRangeCursor.length c = 0 := by omega
    have hr : ReadMemoryCallback size nitems c = ([], c) := by
      unfold ReadMemoryCallback
      rw [if_neg hl]
    rw [hr]
    refine ⟨?_, ?_, ?_, rfl, ?_, ?_, ?_, fun _ => rfl⟩ <;>
      simp [hl0, h]

/-- Witness for C3 at a cursor one byte into a three byte payload, asked
for two bytes. -/
theorem readMemoryCallback_copies_min_witness :
    (ReadMemoryCallback 2 1 ⟨[1, 2, 3], 1⟩).1
        = (([1, 2, 3] : List Nat).drop 1).take
            (min (2 * 1) (ConstDataRangeCursor.length ⟨[1, 2, 3], 1⟩)) ∧
    (ReadMemoryCallback 2 1 ⟨[1, 2, 3], 1⟩).1.length
        = min (2 * 1) (ConstDataRangeCursor.length ⟨[1, 2, 3], 1⟩) ∧
    (ReadMemoryCallback 2 1 ⟨[1, 2, 3], 1⟩).2.pos
        = 1 + (ReadMemoryCallback 2 1 ⟨[1, 2, 3], 1⟩).1.length ∧
    (ReadMemoryCallback 2 1 ⟨[1, 2, 3], 1⟩).2.payload = [1, 2, 3] ∧
    (ReadMemoryCallback 2 1 ⟨[1, 2, 3], 1⟩).1.length ≤ 2 * 1 ∧
    (ReadMemoryCallback 2 1 ⟨[1, 2, 3], 1⟩).1.length
        ≤ ConstDataRangeCursor.length ⟨[1, 2, 3], 1⟩ ∧
    (ReadMemoryCallback 2 1 ⟨[1, 2, 3], 1⟩).2.pos ≤ ([1, 2, 3] : List Nat).length ∧
    (ConstDataRangeCursor.length ⟨[1, 2, 3], 1⟩ = 0 →
        ReadMemoryCallback 2 1 ⟨[1, 2, 3], 1⟩ = ([], ⟨[1, 2, 3], 1⟩)) :=
  readMemoryCallback_copies_min 2 1 ⟨[1, 2, 3], 1⟩ (by decide)

/-- Claim C4: when the append of the offered bytes succeeds the write-in
callback returns exactly the offered count; when the append fails it
returns 0, a count necessarily different from the offered one, and leaves
the builder untouched, reporting the failure through no other channel
than that short count. -/
theorem writeMemoryCallback_count (size nmemb : Nat) (data : List Nat) (allocOk : Bool)
    (db : DataBuilder) (h : db.buf.length ≤ db.capacity) :
    (∀ db2, DataBuilder.writeAndAdvance allocOk db (data.take (size * nmemb)) = some db2 →
      WriteMemoryCallback size nmemb data allocOk db = (size * nmemb, db2)) ∧
    (DataBuilder.writeAndAdvance allocOk db (data.take (size * nmemb)) = none →
      (WriteMemoryCallback size nmemb data allocOk db).1 ≠ size * nmemb ∧
      WriteMemoryCallback size nmemb data allocOk db = (0, db)) := by
  constructor
  · intro db2 hw
    simp only [WriteMemoryCallback]
    rw [hw]
  · intro hw
    have hpos : size * nmemb ≠ 0 := by
      intro hz
      rw [hz] at hw
      unfold DataBuilder.writeAndAdvance at hw
      simp [h] at hw
    have hcall : WriteMemoryCallback size nmemb data allocOk db = (0, db) := by
      simp only [WriteMemoryCallback]
      rw [hw]
    refine ⟨?_, hcall⟩
    rw [hcall]
    intro hcon
    exact hpos hcon.symm

/-- Witness for C4: a builder with one free byte of capacity, offered two
bytes with the growth allocation failing. -/
theorem writeMemoryCallback_count_witness :
    (∀ db2, DataBuilder.writeAndAdvance false ⟨[5], 2⟩
          (([9, 9] : List Nat).take (1 * 2)) = some db2 →
      WriteMemoryCallback 1 2 [9, 9] false ⟨[5], 2⟩ = (1 * 2, db2)) ∧
    (DataBuilder.writeAndAdvance false ⟨[5], 2⟩ (([9, 9] : List Nat).take (1 * 2)) = none →
      (WriteMemoryCallback 1 2 [9, 9] false ⟨[5], 2⟩).1 ≠ 1 * 2 ∧
      WriteMemoryCallback 1 2 [9, 9] false ⟨[5], 2⟩ = (0, ⟨[5], 2⟩)) :=
  writeMemoryCallback_count 1 2 [9, 9] false ⟨[5], 2⟩ (by decide)

/-- Claim C6: the protocol mask is HTTPS alone with test mode disabled
and exactly HTTPS plus HTTP with test mode enabled; consequently, with
test mode disabled, a post to an http URL resolves to a failure caused by
the protocol restriction (CURLE_UNSUPPORTED_PROTOCOL from the perform
step). -/
theorem doPost_protocol_policy :
    (∀ (u : String) (plen : Nat),
        (configureOptions false u plen).protocols = CURLPROTO_HTTPS ∧
        (configureOptions true u plen).protocols
          = CURLPROTO_HTTPS ||| CURLPROTO_HTTP) ∧
    (∀ (env : CurlTransferEnv) (u : String) (p : List Nat),
        env.testCommandsEnabled = false → env.exn = none → env.easyInitOk = true →
        urlProtocolBit u = CURLPROTO_HTTP →
        doPost env u p = [PromiseWrite.error ErrorCodes.OperationFailed
          ("Bad HTTP response from API server: "
            ++ env.strerror CURLE_UNSUPPORTED_PROTOCOL)]) := by
  constructor
  · intro u plen
    exact ⟨rfl, rfl⟩
  · intro env u p htest hexn hinit hbit
    have hpt : performTransfer env u p = (CURLE_UNSUPPORTED_PROTOCOL, ⟨[], 4096⟩) := by
      unfold performTransfer
      rw [htest]
      unfold curlEasyPerform
      rw [hbit]
      have hproto : (configureOptions false u p.length).protocols = CURLPROTO_HTTPS := rfl
      rw [hproto]
      rw [if_pos (by decide)]
    rw [doPost_eq_configured env u p hexn hinit]
    unfold doPostConfigured
    rw [hpt]
    rw [if_pos (by decide)]

/-- Witness for C6: the concrete protocol masks, and a post of the happy
environment to an http URL failing with the protocol error. -/
theorem doPost_protocol_policy_witness :
    ((configureOptions false "http://a.example" 1).protocols = CURLPROTO_HTTPS ∧
     (configureOptions true "http://a.example" 1).protocols
        = CURLPROTO_HTTPS ||| CURLPROTO_HTTP) ∧
    doPost happyEnv "http://a.example" [3]
      = [PromiseWrite.error ErrorCodes.OperationFailed
          ("Bad HTTP response from API server: "
            ++ happyEnv.strerror CURLE_UNSUPPORTED_PROTOCOL)] :=
  ⟨doPost_protocol_policy.1 "http://a.example" 1,
   doPost_protocol_policy.2 happyEnv "http://a.example" [3] rfl rfl rfl (by decide)⟩

/-- Claim C7: once a call of initialize has succeeded, every subsequent
call returns success immediately, running curl_global_init zero further
times, so two sequential calls from the fresh state both succeed and
global startup runs exactly once. -/
theorem initialize_idempotent (genv1 genv2 : CurlGlobalEnv)
    (h : ( CurlLibraryManager.initialize genv1 ⟨false⟩).status = Status.ok) :
    (∀ m : CurlLibraryManager, m.initialized = true →
        CurlLibraryManager.initialize genv2 m = ⟨Status.ok, m, 0⟩) ∧
    CurlLibraryManager.initialize genv2
        (( CurlLibraryManager.initialize genv1 ⟨false⟩).state)
      = ⟨Status.ok, ( CurlLibraryManager.initialize genv1 ⟨false⟩).state, 0⟩ ∧
    ( CurlLibraryManager.initialize genv1 ⟨false⟩).startups
      + ( CurlLibraryManager.initialize genv2
          (( CurlLibraryManager.initialize genv1 ⟨false⟩).state)).startups = 1 := by
  have hres : CurlLibraryManager.initialize genv1 ⟨false⟩ = ⟨Status.ok, ⟨true⟩, 1⟩ := by
    by_cases h1 : genv1.globalInitResult = CURLE_OK
    · by_cases h2 : genv1.sslSupported = true
      · simp [ CurlLibraryManager.initialize, h1, h2]
      · exfalso
        simp only [Bool.not_eq_true] at h2
        simp [ CurlLibraryManager.initialize, h1, h2] at h
    · exfalso
      simp [ CurlLibraryManager.initialize, h1] at h
  refine ⟨?_, ?_, ?_⟩
  · intro m hm
    simp [ CurlLibraryManager.initialize, hm]
  · rw [hres]
    simp [ CurlLibraryManager.initialize]
  · rw [hres]
    simp [ CurlLibraryManager.initialize]

/-- Witness for C7 with a curl environment whose global startup
succeeds and reports SSL support. -/
theorem initialize_idempotent_witness :
    (∀ m : CurlLibraryManager, m.initialized = true →
        CurlLibraryManager.initialize ⟨0, true⟩ m = ⟨Status.ok, m, 0⟩) ∧
    CurlLibraryManager.initialize ⟨0, true⟩
        (( CurlLibraryManager.initialize ⟨0, true⟩ ⟨false⟩).state)
      = ⟨Status.ok, ( CurlLibraryManager.initialize ⟨0, true⟩ ⟨false⟩).state, 0⟩ ∧
    ( CurlLibraryManager.initialize ⟨0, true⟩ ⟨false⟩).startups
      + ( CurlLibraryManager.initialize ⟨0, true⟩
          (( CurlLibraryManager.initialize ⟨0, true⟩ ⟨false⟩).state)).startups = 1 :=
  initialize_idempotent ⟨0, true⟩ ⟨0, true⟩ (by decide)

/-- Claim C8 counterexample: the claim requires the TLS-missing failure
to carry an error kind distinct from the startup failure, but on concrete
inputs both failures carry the same kind, InternalError. -/
theorem initialize_error_kinds_not_distinct :
    ( CurlLibraryManager.initialize ⟨1, true⟩ ⟨false⟩).status.errorCode
        = some ErrorCodes.InternalError ∧
    ( CurlLibraryManager.initialize ⟨0, false⟩ ⟨false⟩).status.errorCode
        = some ErrorCodes.InternalError ∧
    ( CurlLibraryManager.initialize ⟨1, true⟩ ⟨false⟩).status.errorCode
        = ( CurlLibraryManager.initialize ⟨0, false⟩ ⟨false⟩).status.errorCode := by
  refine ⟨rfl, rfl, rfl⟩

/-- Claim C8 amended: from the uninitialized state, initialize fails with
the InternalError kind and the startup message when global startup
reports a failure, fails with the same InternalError kind and the
SSL-support message when the engine lacks TLS support, and records the
initialized flag exactly when neither failure occurs. -/
theorem initialize_failure_modes (genv : CurlGlobalEnv) (m : CurlLibraryManager)
    (hm : m.initialized = false) :
    (genv.globalInitResult ≠ CURLE_OK →
      CurlLibraryManager.initialize genv m
        = ⟨Status.error ErrorCodes.InternalError
            ("Failed to initialize CURL: " ++ toString genv.globalInitResult), m, 1⟩) ∧
    (genv.globalInitResult = CURLE_OK → genv.sslSupported = false →
      CurlLibraryManager.initialize genv m
        = ⟨Status.error ErrorCodes.InternalError
            "Curl lacks SSL support, cannot continue", m, 1⟩) ∧
    (genv.globalInitResult = CURLE_OK → genv.sslSupported = true →
      CurlLibraryManager.initialize genv m = ⟨Status.ok, ⟨true⟩, 1⟩) := by
  refine ⟨?_, ?_, ?_⟩
  · intro h1
    simp [ CurlLibraryManager.initialize, hm, h1]
  · intro h1 h2
    simp [ CurlLibraryManager.initialize, hm, h1, h2]
  · intro h1 h2
    simp [ CurlLibraryManager.initialize, hm, h1, h2]

/-- Witness for the amended C8: concrete startup failure, concrete
missing-TLS failure, and a concrete success recording the flag. -/
theorem initialize_failure_modes_witness :
    CurlLibraryManager.initialize ⟨7, true⟩ ⟨false⟩
        = ⟨Status.error ErrorCodes.InternalError
            ("Failed to initialize CURL: " ++ toString (7 : Nat)), ⟨false⟩, 1⟩ ∧
    CurlLibraryManager.initialize ⟨0, false⟩ ⟨false⟩
        = ⟨Status.error ErrorCodes.InternalError
            "Curl lacks SSL support, cannot continue", ⟨false⟩, 1⟩ ∧
    CurlLibraryManager.initialize ⟨0, true⟩ ⟨false⟩ = ⟨Status.ok, ⟨true⟩, 1⟩ :=
  ⟨(initialize_failure_modes ⟨7, true⟩ ⟨false⟩ rfl).1 (by decide),
   (initialize_failure_modes ⟨0, false⟩ ⟨false⟩ rfl).2.1 rfl rfl,
   (initialize_failure_modes ⟨0, true⟩ ⟨false⟩ rfl).2.2 rfl rfl⟩

/-- Claim C10: the CURLcodes returned by the option-setting calls are
discarded, so the outcome never depends on them, and an error outcome can
only arise from handle acquisition, transfer execution, status retrieval,
a non-200 status, or a caught exception. -/
theorem doPost_ignores_setopt_results :
    (∀ (env : CurlTransferEnv) (u : String) (p : List Nat) (r1 r2 : List Nat),
        doPost { env with setoptResults := r1 } u p
          = doPost { env with setoptResults := r2 } u p) ∧
    (∀ (env : CurlTransferEnv) (u : String) (p : List Nat) (code : ErrorCodes)
        (msg : String), doPost env u p = [PromiseWrite.error code msg] →
        env.exn ≠ none ∨ env.easyInitOk = false ∨
        (performTransfer env u p).1 ≠ CURLE_OK ∨
        env.getinfoResult ≠ CURLE_OK ∨ env.statusCode ≠ 200) := by
  constructor
  · intro env u p r1 r2
    rfl
  · intro env u p code msg hw
    by_cases h1 : env.exn = none
    · by_cases h2 : env.easyInitOk = true
      · by_cases h3 : (performTransfer env u p).1 = CURLE_OK
        · by_cases h4 : env.getinfoResult = CURLE_OK
          · by_cases h5 : env.statusCode = 200
            · exfalso
              rw [doPost_eq_configured env u p h1 h2] at hw
              unfold doPostConfigured at hw
              simp [h3, h4, h5] at hw
            · exact Or.inr (Or.inr (Or.inr (Or.inr h5)))
          · exact Or.inr (Or.inr (Or.inr (Or.inl h4)))
        · exact Or.inr (Or.inr (Or.inl h3))
      · refine Or.inr (Or.inl ?_)
        simpa using h2
    · exact Or.inl h1

/-- Witness for C10: the outcome is unchanged under two different setopt
return-code lists, and a concrete 404 error outcome satisfies the source
enumeration. -/
theorem doPost_ignores_setopt_results_witness :
    doPost { happyEnv with setoptResults := [1, 2, 3] } "https://a.example" [3]
        = doPost { happyEnv with setoptResults := [] } "https://a.example" [3] ∧
    (({ happyEnv with statusCode := 404 } : CurlTransferEnv).exn ≠ none ∨
     ({ happyEnv with statusCode := 404 } : CurlTransferEnv).easyInitOk = false ∨
     (performTransfer { happyEnv with statusCode := 404 } "https://a.example" [3]).1
        ≠ CURLE_OK ∨
     ({ happyEnv with statusCode := 404 } : CurlTransferEnv).getinfoResult ≠ CURLE_OK ∨
     ({ happyEnv with statusCode := 404 } : CurlTransferEnv).statusCode ≠ 200) :=
  ⟨doPost_ignores_setopt_results.1 happyEnv "https://a.example" [3] [1, 2, 3] [],
   doPost_ignores_setopt_results.2 { happyEnv with statusCode := 404 } "https://a.example"
     [3] ErrorCodes.OperationFailed
     ("Unexpected http status code from server: " ++ toString (404 : Int)) (by decide)⟩

end Mongo
